import Mathlib

/-!
A shallow embedding of the chat client in `src/main.py` (classes `MessageType`,
`Message`, `Theme`, `Themes`, `ChatMessageWidget`, `ModernChatWindow`), together
with proofs about the behaviour of its operations.

Modelling conventions:
- Qt widgets are replaced by plain data.  The vertical layout holding the
  message timeline (`self.messages_layout`) is a `List LayoutItem`; the stretch
  item added by `addStretch()` is `LayoutItem.stretch`, a `ChatMessageWidget`
  is `LayoutItem.widget` storing the message and the theme it was built with.
- `datetime.now()` is modelled by passing the current `DateTime` explicitly to
  every operation that stamps a message; `random.choice` by passing the chosen
  index; file dialogs by passing the chosen path (`""` = cancelled dialog).
- `QTimer.singleShot(1000, self.simulate_response)` is modelled by a counter
  `pending_replies` of scheduled one-shot callbacks; firing a timer is the
  `Action.fireReply` step, which requires a scheduled callback to be pending.
- Python string helpers used by the source (`str.strip`, `str.lower`,
  `str.endswith`, `os.path.basename`) are modelled on `List Char` below.
-/

namespace Chat

/-- `class MessageType(Enum)` from the source. -/
inductive MessageType
  | TEXT
  | IMAGE
  | FILE
  | SYSTEM
deriving DecidableEq

/-- Model of a `datetime.datetime` value (only the fields the program ever
formats: year, month, day, hour, minute, second). -/
structure DateTime where
  year : Nat
  month : Nat
  day : Nat
  hour : Nat
  minute : Nat
  second : Nat
deriving DecidableEq

/-- `@dataclass class Message` from the source. -/
structure Message where
  content : String
  type : MessageType
  sender : String
  timestamp : DateTime
  metadata : Option (List (String × String)) := none
deriving DecidableEq

/-- `class Theme` from the source: a name plus the 7-entry color dict. -/
structure Theme where
  name : String
  background : String
  secondary : String
  accent : String
  text : String
  input : String
  hover : String
  pressed : String
deriving DecidableEq

/-- `Themes.DARK` from the source. -/
def Themes.DARK : Theme :=
  { name := "Dark"
    background := "#36393F"
    secondary := "#2F3136"
    accent := "#7289DA"
    text := "#FFFFFF"
    input := "#40444B"
    hover := "#677BC4"
    pressed := "#5B6EAE" }

/-- `Themes.LIGHT` from the source. -/
def Themes.LIGHT : Theme :=
  { name := "Light"
    background := "#FFFFFF"
    secondary := "#F2F3F5"
    accent := "#5865F2"
    text := "#2E3338"
    input := "#EBEDEF"
    hover := "#4752C4"
    pressed := "#3C45A5" }

/-- `Themes.NORD` from the source. -/
def Themes.NORD : Theme :=
  { name := "Nord"
    background := "#2E3440"
    secondary := "#3B4252"
    accent := "#88C0D0"
    text := "#ECEFF4"
    input := "#434C5E"
    hover := "#81A1C1"
    pressed := "#5E81AC" }

/-- The class `Themes` as a record (mirrors the three class attributes);
kept inside the program state so that "no operation mutates a built-in
theme" is expressible as a frame property. -/
structure ThemesRegistry where
  DARK : Theme
  LIGHT : Theme
  NORD : Theme
deriving DecidableEq

/-! ### Python string helpers used by the source -/

/-- ASCII whitespace stripped by `str.strip()` (the source only ever feeds it
text typed in the composer). -/
def pyIsSpace (c : Char) : Bool :=
  c = ' ' || c = '\t' || c = '\n' || c = '\r' || c = '\x0b' || c = '\x0c'

/-- `str.strip()`: drop leading and trailing whitespace. -/
def pyStrip (s : String) : String :=
  ⟨((s.data.dropWhile pyIsSpace).reverse.dropWhile pyIsSpace).reverse⟩

/-- `str.lower()` on the ASCII range (the only range the source compares). -/
def pyLowerChar (c : Char) : Char :=
  if 'A' ≤ c ∧ c ≤ 'Z' then Char.ofNat (c.toNat + 32) else c

/-- `str.lower()`. -/
def pyLower (s : String) : String :=
  ⟨s.data.map pyLowerChar⟩

/-- `str.endswith(suffixStr)`. -/
def pyEndsWith (s sfx : String) : Bool :=
  sfx.data.isSuffixOf s.data

/-- `os.path.basename`: the part of the path after the last slash. -/
def basename (p : String) : String :=
  ⟨(p.data.reverse.takeWhile fun c => ¬ c = '/').reverse⟩

/-- Zero-pad a decimal number to two digits (`strftime` `%m %d %H %M %S`). -/
def pad2 (n : Nat) : String :=
  if n < 10 then "0" ++ Nat.repr n else Nat.repr n

/-- `strftime("%Y-%m-%d %H:%M:%S")`. -/
def fmt_ts (t : DateTime) : String :=
  Nat.repr t.year ++ "-" ++ pad2 t.month ++ "-" ++ pad2 t.day ++ " " ++
    pad2 t.hour ++ ":" ++ pad2 t.minute ++ ":" ++ pad2 t.second

/-- `strftime("%H:%M")`, used in the message header. -/
def fmt_hm (t : DateTime) : String :=
  pad2 t.hour ++ ":" ++ pad2 t.minute

/-! ### The message renderer (`ChatMessageWidget.setup_ui`) -/

/-- The body widget produced for a message: a text `QLabel` (word-wrapped,
content in a given color), an image `QLabel` (pixmap scaled into 300×300), or
a file `QLabel` (glyph + basename in a given color). -/
inductive RenderedContent
  | textLabel (text : String) (color : String)
  | imageLabel (path : String)
  | fileLabel (text : String) (color : String)
deriving DecidableEq

/-- The visual block a `ChatMessageWidget` builds for a message under a theme. -/
structure RenderedBlock where
  senderText : String
  senderColor : String
  timeText : String
  timeColor : String
  content : RenderedContent
  backgroundColor : String
deriving DecidableEq

/-- `ChatMessageWidget.setup_ui`: pure function of the stored message and
theme.  Note the content dispatch: `if TEXT ... elif IMAGE ... else ...` —
the `else` branch (glyph + basename, accent color) catches both `FILE` and
`SYSTEM`. -/
def render (message : Message) (theme : Theme) : RenderedBlock :=
  { senderText := message.sender
    senderColor := theme.accent
    timeText := fmt_hm message.timestamp
    timeColor := theme.text
    content :=
      if message.type = MessageType.TEXT then
        .textLabel message.content theme.text
      else if message.type = MessageType.IMAGE then
        .imageLabel message.content
      else
        .fileLabel ("📎 " ++ basename message.content) theme.accent
    backgroundColor := theme.secondary }

/-! ### The window state (`ModernChatWindow`) -/

/-- One item of `self.messages_layout`: the stretch added by `addStretch()`
in `setup_ui`, or a `ChatMessageWidget(message, theme)`. -/
inductive LayoutItem
  | stretch
  | widget (message : Message) (theme : Theme)
deriving DecidableEq

/-- The stylesheet `apply_theme` regenerates from the 7 theme colors. -/
structure Stylesheet where
  windowBg : String
  windowText : String
  editBg : String
  editText : String
  buttonBg : String
  buttonText : String
  buttonHover : String
  buttonPressed : String
  listBg : String
  listItemHover : String
  listItemSelected : String
deriving DecidableEq

/-- The fixed color mapping inside `apply_theme`'s stylesheet string. -/
def stylesheetFor (theme : Theme) : Stylesheet :=
  { windowBg := theme.background
    windowText := theme.text
    editBg := theme.input
    editText := theme.text
    buttonBg := theme.accent
    buttonText := "white"
    buttonHover := theme.hover
    buttonPressed := theme.pressed
    listBg := theme.secondary
    listItemHover := theme.input
    listItemSelected := theme.accent }

/-- The mutable state of `ModernChatWindow` relevant to the claims. -/
structure ChatState where
  current_theme : Theme
  messages : List Message
  message_input : String
  emoji_panel_visible : Bool
  layout : List LayoutItem
  stylesheet : Stylesheet
  pending_replies : Nat
  themes : ThemesRegistry
deriving DecidableEq

/-- State right after `__init__`/`setup_ui`: Dark theme, empty log, empty
composer, hidden emoji panel, the layout holding only the stretch item, the
Dark stylesheet applied, no scheduled auto-reply. -/
def initial_state : ChatState :=
  { current_theme := Themes.DARK
    messages := []
    message_input := ""
    emoji_panel_visible := false
    layout := [LayoutItem.stretch]
    stylesheet := stylesheetFor Themes.DARK
    pending_replies := 0
    themes := ⟨Themes.DARK, Themes.LIGHT, Themes.NORD⟩ }

/-! ### Operations -/

/-- `add_message`: append to `self.messages` and `addWidget` a new
`ChatMessageWidget(message, self.current_theme)` at the end of the layout. -/
def add_message (message : Message) (st : ChatState) : ChatState :=
  { st with
    messages := st.messages ++ [message]
    layout := st.layout ++ [LayoutItem.widget message st.current_theme] }

/-- `send_message`: strip the composer text; if non-empty, append a TEXT
message from "Tú", clear the composer and schedule the auto-reply
(`QTimer.singleShot(1000, self.simulate_response)`); otherwise do nothing. -/
def send_message (now : DateTime) (st : ChatState) : ChatState :=
  let text := pyStrip st.message_input
  if text = "" then st
  else
    let st1 := add_message
      { content := text, type := MessageType.TEXT, sender := "Tú",
        timestamp := now } st
    { st1 with
      message_input := ""
      pending_replies := st1.pending_replies + 1 }

/-- The fixed response table in `simulate_response`. -/
def responses : List String :=
  ["¡Interesante punto de vista!",
   "Entiendo lo que dices.",
   "¿Podrías explicar más sobre eso?",
   "Me parece una buena idea.",
   "¿Qué más piensas al respecto?"]

/-- `simulate_response` with the `random.choice` index passed explicitly:
append a TEXT message from "Usuario 1" with the chosen response. -/
def simulate_response (i : Fin 5) (now : DateTime) (st : ChatState) : ChatState :=
  add_message
    { content := responses.get i, type := MessageType.TEXT,
      sender := "Usuario 1", timestamp := now } st

/-- The tray notification `simulate_response` raises (title, body). -/
def notification (i : Fin 5) : String × String :=
  ("Nuevo mensaje", "Usuario 1: " ++ responses.get i)

/-- The image extensions tested by `select_file`. -/
def image_exts : List String := [".png", ".jpg", ".jpeg", ".gif"]

/-- `select_file` with the dialog result passed explicitly: empty path means
the dialog was cancelled and nothing happens; otherwise append a message whose
type is IMAGE when `file_path.lower().endswith(('.png','.jpg','.jpeg','.gif'))`
and FILE otherwise. -/
def select_file (file_path : String) (now : DateTime) (st : ChatState) : ChatState :=
  if file_path = "" then st
  else
    add_message
      { content := file_path
        type :=
          if ¬ (image_exts.any fun ext => pyEndsWith (pyLower file_path) ext) then
            MessageType.FILE
          else
            MessageType.IMAGE
        sender := "Tú"
        timestamp := now } st

/-- `toggle_emoji_panel`: flip the panel's visibility. -/
def toggle_emoji_panel (st : ChatState) : ChatState :=
  { st with emoji_panel_visible := ¬ st.emoji_panel_visible }

/-- `insert_emoji`: `insertPlainText` at the cursor, modelled by splitting the
composer text at the cursor position. -/
def insert_emoji (emoji : String) (cursor : Nat) (st : ChatState) : ChatState :=
  { st with
    message_input :=
      ⟨st.message_input.data.take cursor ++ emoji.data ++
        st.message_input.data.drop cursor⟩ }

/-- `QBoxLayout.insertWidget(i, w)`: insert before index `i`; an index at or
past the end appends (Qt also appends for index -1, which in the source only
arises as `count()-1` on an empty layout, rendered here by `0-1 = 0` on `Nat`,
giving the same resulting list). -/
def qt_insert (i : Nat) (x : LayoutItem) (L : List LayoutItem) : List LayoutItem :=
  L.take i ++ x :: L.drop i

/-- The `while self.messages_layout.count() > 1: takeAt(0)` loop: keep removing
the first item while more than one remains. -/
def remove_all_but_last : List LayoutItem → List LayoutItem
  | [] => []
  | [x] => [x]
  | _ :: x :: xs => remove_all_but_last (x :: xs)

/-- `refresh_messages`: run the removal loop, then for each message insert a
freshly themed widget at position `count() - 1`. -/
def refresh_messages (st : ChatState) : ChatState :=
  { st with
    layout :=
      st.messages.foldl
        (fun L message =>
          qt_insert (L.length - 1) (LayoutItem.widget message st.current_theme) L)
        (remove_all_but_last st.layout) }

/-- `apply_theme`: store the new theme, regenerate the stylesheet from its
colors, and rebuild every message widget. -/
def apply_theme (theme : Theme) (st : ChatState) : ChatState :=
  refresh_messages
    { st with
      current_theme := theme
      stylesheet := stylesheetFor theme }

/-! ### Export (`save_chat_history`) -/

/-- One exported plain-text line without its terminating newline:
`[YYYY-MM-DD HH:MM:SS] sender: content`. -/
def export_body (m : Message) : String :=
  "[" ++ fmt_ts m.timestamp ++ "] " ++ m.sender ++ ": " ++ m.content

/-- One `f.write(...)` of the plain-text branch (newline-terminated). -/
def export_line (m : Message) : String :=
  export_body m ++ "\n"

/-- The plain-text branch of `save_chat_history`: the file is the
concatenation of one write per message, in log order. -/
def save_chat_text : List Message → String
  | [] => ""
  | m :: ms => export_line m ++ save_chat_text ms

/-- One message `div` of the HTML branch of `save_chat_history`. -/
def export_html_div (theme : Theme) (m : Message) : String :=
  "<div style='margin: 10px; padding: 10px; background-color: " ++
    theme.secondary ++ ";'><strong style='color: " ++ theme.accent ++
    ";'>" ++ m.sender ++ "</strong> <span style='color: #999; font-size: 0.8em;'>" ++
    fmt_ts m.timestamp ++ "</span><br><span style='color: " ++ theme.text ++
    ";'>" ++ m.content ++ "</span></div>"

/-- The HTML branch body writes. -/
def save_chat_html_body (theme : Theme) : List Message → String
  | [] => ""
  | m :: ms => export_html_div theme m ++ save_chat_html_body theme ms

/-- The HTML branch of `save_chat_history`. -/
def save_chat_html (theme : Theme) (messages : List Message) : String :=
  "<html><body style='font-family: Arial, sans-serif;'>" ++
    save_chat_html_body theme messages ++ "</body></html>"

/-- `save_chat_history` with the dialog result passed explicitly: `none` when
the dialog is cancelled, otherwise the contents of the file written (the
plain-text serialization when the chosen path ends in `.txt`, else HTML). -/
def save_chat_history (file_path : String) (st : ChatState) : Option String :=
  if file_path = "" then none
  else if pyEndsWith file_path ".txt" then some (save_chat_text st.messages)
  else some (save_chat_html st.current_theme st.messages)

/-! ### Key handling (`eventFilter`) -/

/-- `QEvent.KeyPress`. -/
def qevent_keypress : Nat := 6

/-- `Qt.Key_Return` (0x01000004). -/
def qt_key_return : Nat := 16777220

/-- `Qt.ControlModifier` (0x04000000). -/
def qt_control_modifier : Nat := 67108864

/-- `Qt.NoModifier`. -/
def qt_no_modifier : Nat := 0

/-- A key event: the `QEvent` type id, the key code and the modifier mask. -/
structure KeyEvent where
  etype : Nat
  key : Nat
  modifiers : Nat
deriving DecidableEq

/-- `eventFilter`, returning (Send triggered, event consumed).  The source
triggers Send and returns `True` exactly when the event targets the composer,
is a key press of `Key_Return`, and `modifiers() == ControlModifier`; every
other event falls through to `super().eventFilter` (not consumed, no Send). -/
def eventFilter (objIsComposer : Bool) (e : KeyEvent) : Bool × Bool :=
  if objIsComposer ∧ e.etype = qevent_keypress ∧ e.key = qt_key_return ∧
      e.modifiers = qt_control_modifier then
    (true, true)
  else
    (false, false)

/-! ### The event-level step relation -/

/-- The discrete user/timer actions the controller reacts to. -/
inductive Action
  | send (now : DateTime)
  | fireReply (i : Fin 5) (now : DateTime)
  | attach (file_path : String) (now : DateTime)
  | switchTheme (theme : Theme)
  | toggleEmoji
  | emoji (e : String) (cursor : Nat)
  | exportHistory (file_path : String)

/-- One controller step.  `fireReply` is the one-shot timer firing: it only
does anything when a `singleShot` is pending, and consumes it. -/
def step : Action → ChatState → ChatState
  | .send now, st => send_message now st
  | .fireReply i now, st =>
      if 0 < st.pending_replies then
        { simulate_response i now st with pending_replies := st.pending_replies - 1 }
      else st
  | .attach file_path now, st => select_file file_path now st
  | .switchTheme theme, st => apply_theme theme st
  | .toggleEmoji, st => toggle_emoji_panel st
  | .emoji e cursor, st => insert_emoji e cursor st
  | .exportHistory _, st => st

/-- The messages shown by the timeline, in layout order (stretch items show
nothing). -/
def timelineMsgs (L : List LayoutItem) : List Message :=
  L.filterMap fun item =>
    match item with
    | .stretch => none
    | .widget m _ => some m

/-- Split a character stream at newline characters (n newlines give n+1
fields). -/
def splitNl : List Char → List (List Char)
  | [] => [[]]
  | c :: cs =>
    if c = '\n' then [] :: splitNl cs
    else
      match splitNl cs with
      | [] => [[c]]
      | l :: ls => (c :: l) :: ls

/-- The lines of a newline-terminated text file (the empty field after the
final newline is not a line). -/
def fileLines (s : String) : List String :=
  ((splitNl s.data).dropLast).map fun l => ⟨l⟩

/-- A sample timestamp used by concrete evaluations. -/
def ts0 : DateTime := ⟨2024, 1, 2, 3, 4, 5⟩

/-- The startup welcome message appended by `main()`. -/
def welcome : Message :=
  { content := "¡Bienvenido al chat! Este es un mensaje de sistema.",
    type := MessageType.SYSTEM, sender := "Sistema", timestamp := ts0 }

/-- State right after startup: the welcome message appended to the initial
state. -/
def startup_state : ChatState := add_message welcome initial_state

/-! ### Helper lemmas -/

theorem digitChar_ne_newline (n : Nat) : Nat.digitChar n ≠ '\n' := by
  match n with
  | 0 | 1 | 2 | 3 | 4 | 5 | 6 | 7 | 8 | 9 | 10 | 11 | 12 | 13 | 14 | 15 => decide
  | n + 16 => exact (by decide : ('*' : Char) ≠ '\n')

theorem toDigitsCore_ne_newline (b : Nat) :
    ∀ (fuel n : Nat) (acc : List Char),
      (∀ c ∈ acc, c ≠ '\n') → ∀ c ∈ Nat.toDigitsCore b fuel n acc, c ≠ '\n' := by
  intro fuel
  induction fuel with
  | zero => intro n acc hacc c hc; exact hacc c hc
  | succ fuel ih =>
    intro n acc hacc c hc
    simp only [Nat.toDigitsCore] at hc
    split at hc
    · rcases List.mem_cons.mp hc with h | h
      · exact h ▸ digitChar_ne_newline _
      · exact hacc c h
    · refine ih _ _ ?_ c hc
      intro c' hc'
      rcases List.mem_cons.mp hc' with h | h
      · exact h ▸ digitChar_ne_newline _
      · exact hacc c' h

theorem repr_ne_newline (n : Nat) : '\n' ∉ (Nat.repr n).data := fun h =>
  toDigitsCore_ne_newline 10 (n + 1) n [] (by intro c hc; cases hc) '\n' h rfl

theorem pad2_ne_newline (n : Nat) : '\n' ∉ (pad2 n).data := by
  unfold pad2
  split
  · intro h
    exact repr_ne_newline n (by simpa using h)
  · exact repr_ne_newline n

theorem fmt_ts_ne_newline (t : DateTime) : '\n' ∉ (fmt_ts t).data := by
  unfold fmt_ts
  intro h
  simp only [String.data_append, List.mem_append] at h
  rcases h with ((((((((((h | h) | h) | h) | h) | h) | h) | h) | h) | h) | h)
  · exact repr_ne_newline _ h
  · exact absurd h (by decide)
  · exact pad2_ne_newline _ h
  · exact absurd h (by decide)
  · exact pad2_ne_newline _ h
  · exact absurd h (by decide)
  · exact pad2_ne_newline _ h
  · exact absurd h (by decide)
  · exact pad2_ne_newline _ h
  · exact absurd h (by decide)
  · exact pad2_ne_newline _ h

theorem export_body_ne_newline (m : Message)
    (hs : '\n' ∉ m.sender.data) (hc : '\n' ∉ m.content.data) :
    '\n' ∉ (export_body m).data := by
  unfold export_body
  intro h
  simp only [String.data_append, List.mem_append] at h
  rcases h with ((((h | h) | h) | h) | h) | h
  · exact absurd h (by decide)
  · exact fmt_ts_ne_newline _ h
  · exact absurd h (by decide)
  · exact hs h
  · exact absurd h (by decide)
  · exact hc h

theorem splitNl_append (l rest : List Char) (hl : '\n' ∉ l) :
    splitNl (l ++ '\n' :: rest) = l :: splitNl rest := by
  induction l with
  | nil => simp [splitNl]
  | cons c cs ih =>
    have hc : ¬ c = '\n' := fun h => hl (by simp [h])
    have ih' := ih fun h => hl (List.mem_cons_of_mem _ h)
    simp only [List.cons_append, splitNl, if_neg hc, List.append_eq, ih']

theorem splitNl_save_chat_text (msgs : List Message)
    (h : ∀ m ∈ msgs, '\n' ∉ m.sender.data ∧ '\n' ∉ m.content.data) :
    splitNl (save_chat_text msgs).data =
      (msgs.map fun m => (export_body m).data) ++ [[]] := by
  induction msgs with
  | nil => simp [save_chat_text]; rfl
  | cons m ms ih =>
    have hm := h m (List.mem_cons_self m ms)
    have hdata : (save_chat_text (m :: ms)).data =
        (export_body m).data ++ '\n' :: (save_chat_text ms).data := by
      show (export_line m ++ save_chat_text ms).data = _
      simp only [export_line, String.data_append, List.append_assoc]
      rfl
    rw [hdata, splitNl_append _ _ (export_body_ne_newline m hm.1 hm.2),
      ih fun m' hm' => h m' (List.mem_cons_of_mem _ hm')]
    simp

/-! ### Claims -/

/-- C1: if the composer text strips to something non-empty, `send_message`
appends exactly one TEXT message whose content is the stripped text and whose
sender is "Tú", and clears the composer; if it strips to empty, `send_message`
appends no message. -/
theorem send_appends_iff_nonempty (st : ChatState) (now : DateTime) :
    (pyStrip st.message_input ≠ "" →
      (send_message now st).messages =
        st.messages ++
          [{ content := pyStrip st.message_input, type := MessageType.TEXT,
             sender := "Tú", timestamp := now }] ∧
      (send_message now st).message_input = "") ∧
    (pyStrip st.message_input = "" →
      (send_message now st).messages = st.messages) := by
  constructor
  · intro h
    simp [send_message, add_message, h]
  · intro h
    simp [send_message, h]

/-- Witness for C1 at the concrete composer text `"  hola  "`. -/
theorem send_appends_iff_nonempty_witness :
    pyStrip "  hola  " ≠ "" ∧
    ((send_message ts0 { initial_state with message_input := "  hola  " }).messages =
        ({ initial_state with message_input := "  hola  " } : ChatState).messages ++
          [{ content := pyStrip "  hola  ", type := MessageType.TEXT,
             sender := "Tú", timestamp := ts0 }] ∧
      (send_message ts0 { initial_state with message_input := "  hola  " }).message_input = "") :=
  ⟨by decide,
   (send_appends_iff_nonempty { initial_state with message_input := "  hola  " } ts0).1
     (by decide)⟩

/-- C10: on a composer text that strips to empty, `send_message` is a complete
no-op: same state, composer text untouched, no auto-reply scheduled
(`pending_replies` unchanged), log unchanged. -/
theorem send_empty_is_noop (st : ChatState) (now : DateTime)
    (h : pyStrip st.message_input = "") :
    send_message now st = st := by
  simp [send_message, h]

/-- Witness for C10 at a whitespace-only composer text. -/
theorem send_empty_is_noop_witness :
    pyStrip " \n\t " = "" ∧
    send_message ts0 { initial_state with message_input := " \n\t " } =
      { initial_state with message_input := " \n\t " } :=
  ⟨by decide, send_empty_is_noop _ ts0 (by decide)⟩

/-- C4: a cancelled picker (empty path) appends nothing; a non-empty path
appends exactly one message from "Tú" whose content is the path and whose type
is IMAGE precisely when the lower-cased path ends in one of `.png`, `.jpg`,
`.jpeg`, `.gif`, and FILE otherwise. -/
theorem select_file_classification (st : ChatState) (file_path : String)
    (now : DateTime) :
    (file_path = "" → select_file file_path now st = st) ∧
    (file_path ≠ "" →
      (select_file file_path now st).messages =
        st.messages ++
          [{ content := file_path
             type :=
               if image_exts.any (fun ext => pyEndsWith (pyLower file_path) ext) then
                 MessageType.IMAGE
               else
                 MessageType.FILE
             sender := "Tú"
             timestamp := now }]) := by
  constructor
  · intro h
    simp [select_file, h]
  · intro h
    by_cases hc : (image_exts.any fun ext => pyEndsWith (pyLower file_path) ext) = true
    · simp [select_file, if_neg h, add_message, hc]
    · simp [select_file, if_neg h, add_message, hc]

/-- Witness for C4 at the concrete path `"photo.PNG"` (upper-case image
extension). -/
theorem select_file_classification_witness :
    ("photo.PNG" : String) ≠ "" ∧
    (select_file "photo.PNG" ts0 initial_state).messages =
      initial_state.messages ++
        [{ content := "photo.PNG"
           type :=
             if image_exts.any (fun ext => pyEndsWith (pyLower "photo.PNG") ext) then
               MessageType.IMAGE
             else
              MessageType.FILE
           sender := "Tú"
           timestamp := ts0 }] :=
  ⟨by decide, (select_file_classification initial_state "photo.PNG" ts0).2 (by decide)⟩

/-- C8: a key press on the composer with `Key_Return` and exactly the Control
modifier triggers Send and consumes the event; with any other modifier mask
(in particular `NoModifier`, a plain Return) it neither triggers Send nor
consumes the event. -/
theorem eventFilter_ctrl_return (e : KeyEvent)
    (hk : e.etype = qevent_keypress) (hr : e.key = qt_key_return) :
    (e.modifiers = qt_control_modifier → eventFilter true e = (true, true)) ∧
    (e.modifiers ≠ qt_control_modifier → eventFilter true e = (false, false)) := by
  constructor
  · intro hm
    simp [eventFilter, hk, hr, hm]
  · intro hm
    simp [eventFilter, hk, hr, hm]

/-- Witness for C8: Control+Return sends and is consumed; plain Return
(NoModifier) does not send. -/
theorem eventFilter_ctrl_return_witness :
    eventFilter true ⟨6, 16777220, 67108864⟩ = (true, true) ∧
    eventFilter true ⟨6, 16777220, 0⟩ = (false, false) :=
  ⟨(eventFilter_ctrl_return ⟨6, 16777220, 67108864⟩ rfl rfl).1 rfl,
   (eventFilter_ctrl_return ⟨6, 16777220, 0⟩ rfl rfl).2 (by decide)⟩

/-- C2 counterexample: the SYSTEM welcome message is not rendered as a
word-wrapped text label of its content in the theme's text color — the
renderer's `else` branch gives SYSTEM messages the file treatment. -/
theorem system_not_rendered_as_text :
    (render welcome Themes.DARK).content ≠
      RenderedContent.textLabel welcome.content Themes.DARK.text := by
  decide

/-- C2 (amended): a SYSTEM message is rendered exactly like a FILE message —
an attachment-glyph label `📎 basename(content)` in the theme's accent color
(not the text treatment), with the same header and chrome as any message. -/
theorem system_rendered_as_file (m : Message) (t : Theme)
    (h : m.type = MessageType.SYSTEM) :
    render m t = render { m with type := MessageType.FILE } t ∧
    (render m t).content =
      RenderedContent.fileLabel ("📎 " ++ basename m.content) t.accent := by
  constructor <;> simp [render, h]

/-- Witness for C2's amended theorem at the concrete welcome message. -/
theorem system_rendered_as_file_witness :
    welcome.type = MessageType.SYSTEM ∧
    render welcome Themes.DARK =
      render { welcome with type := MessageType.FILE } Themes.DARK ∧
    (render welcome Themes.DARK).content =
      RenderedContent.fileLabel ("📎 " ++ basename welcome.content)
        Themes.DARK.accent :=
  ⟨by decide, system_rendered_as_file welcome Themes.DARK (by decide)⟩

/-- Demo state with a non-empty composer, used to witness C5. -/
def demo5 : ChatState := { initial_state with message_input := "hola" }

/-- C5: a successful Send schedules exactly one auto-reply timer; when that
timer fires it consumes the schedule and appends exactly one message, drawn
from the fixed 5-entry response table, with sender "Usuario 1", placed
strictly after the triggering Send's message in the log. -/
theorem auto_reply_once_after_send (st : ChatState) (now now' : DateTime)
    (i : Fin 5) (h : pyStrip st.message_input ≠ "") :
    (send_message now st).pending_replies = st.pending_replies + 1 ∧
    (step (Action.fireReply i now') (send_message now st)).pending_replies =
      st.pending_replies ∧
    (step (Action.fireReply i now') (send_message now st)).messages =
      st.messages ++
        [{ content := pyStrip st.message_input, type := MessageType.TEXT,
           sender := "Tú", timestamp := now },
         { content := responses.get i, type := MessageType.TEXT,
           sender := "Usuario 1", timestamp := now' }] ∧
    responses.get i ∈ responses := by
  refine ⟨?_, ?_, ?_, List.get_mem _ _ _⟩
  · simp [send_message, add_message, h]
  · simp [step, send_message, add_message, simulate_response, h]
  · simp [step, send_message, add_message, simulate_response, h]

/-- Witness for C5 at composer text "hola" and response index 2. -/
theorem auto_reply_once_after_send_witness :
    (send_message ts0 demo5).pending_replies = demo5.pending_replies + 1 ∧
    (step (Action.fireReply 2 ts0) (send_message ts0 demo5)).pending_replies =
      demo5.pending_replies ∧
    (step (Action.fireReply 2 ts0) (send_message ts0 demo5)).messages =
      demo5.messages ++
        [{ content := pyStrip demo5.message_input, type := MessageType.TEXT,
           sender := "Tú", timestamp := ts0 },
         { content := responses.get (2 : Fin 5), type := MessageType.TEXT,
           sender := "Usuario 1", timestamp := ts0 }] ∧
    responses.get (2 : Fin 5) ∈ responses :=
  auto_reply_once_after_send demo5 ts0 ts0 2 (by decide)

/-- C9: no operation mutates the theme registry (the three built-in Theme
instances), which holds exactly the source's Dark/Light/Nord palettes; a theme
switch only reassigns the active-theme reference, regenerates the stylesheet
and rebuilds the timeline — log, composer, emoji-panel flag and scheduled
replies are untouched. -/
theorem themes_never_mutated (a : Action) (st : ChatState) (t : Theme) :
    (step a st).themes = st.themes ∧
    (apply_theme t st).themes = st.themes ∧
    (apply_theme t st).current_theme = t ∧
    (apply_theme t st).stylesheet = stylesheetFor t ∧
    (apply_theme t st).messages = st.messages ∧
    (apply_theme t st).message_input = st.message_input ∧
    (apply_theme t st).emoji_panel_visible = st.emoji_panel_visible ∧
    (apply_theme t st).pending_replies = st.pending_replies ∧
    initial_state.themes = ⟨Themes.DARK, Themes.LIGHT, Themes.NORD⟩ ∧
    Themes.DARK.name = "Dark" ∧ Themes.LIGHT.name = "Light" ∧
    Themes.NORD.name = "Nord" := by
  refine ⟨?_, ?_, ?_, ?_, ?_, ?_, ?_, ?_, rfl, rfl, rfl, rfl⟩
  · cases a <;>
      simp [step, send_message, add_message, simulate_response, select_file,
        apply_theme, refresh_messages, toggle_emoji_panel, insert_emoji,
        apply_ite]
  all_goals simp [apply_theme, refresh_messages]

/-! ### The layout rebuild (`refresh_messages`) -/

theorem remove_all_but_last_snoc (pre : List LayoutItem) (x : LayoutItem) :
    remove_all_but_last (pre ++ [x]) = [x] := by
  induction pre with
  | nil => rfl
  | cons y ys ih =>
    cases ys with
    | nil => rfl
    | cons z zs => exact ih

theorem foldl_insert_snoc (t : Theme) (msgs : List Message) :
    ∀ (pre : List LayoutItem) (x : LayoutItem),
      msgs.foldl
        (fun L message => qt_insert (L.length - 1) (LayoutItem.widget message t) L)
        (pre ++ [x]) =
      (pre ++ msgs.map fun message => LayoutItem.widget message t) ++ [x] := by
  induction msgs with
  | nil => intro pre x; simp
  | cons m ms ih =>
    intro pre x
    have hlen : (pre ++ [x]).length - 1 = pre.length := by simp
    have h1 : qt_insert ((pre ++ [x]).length - 1) (LayoutItem.widget m t)
        (pre ++ [x]) = (pre ++ [LayoutItem.widget m t]) ++ [x] := by
      rw [qt_insert, hlen, List.take_left' rfl, List.drop_left' rfl]
      simp
    rw [List.foldl_cons, h1, ih (pre ++ [LayoutItem.widget m t]) x]
    simp

theorem refresh_messages_layout (st : ChatState) (pre : List LayoutItem)
    (x : LayoutItem) (h : st.layout = pre ++ [x]) :
    (refresh_messages st).layout =
      (st.messages.map fun message =>
        LayoutItem.widget message st.current_theme) ++ [x] := by
  show st.messages.foldl _ (remove_all_but_last st.layout) = _
  rw [h, remove_all_but_last_snoc]
  simpa using foldl_insert_snoc st.current_theme st.messages [] x

/-- C6: switching twice in a row to the same theme produces exactly the same
state — in particular the same rendered colors — as switching once, and a
theme switch leaves the message log (length, order, contents) unchanged.  The
hypothesis `st.layout ≠ []` holds in every reachable state (the layout always
contains at least the stretch item). -/
theorem apply_theme_idempotent (t : Theme) (st : ChatState)
    (h : st.layout ≠ []) :
    apply_theme t (apply_theme t st) = apply_theme t st ∧
    (apply_theme t st).messages = st.messages := by
  obtain ⟨ct, msgs, mi, ev, lay, ss, pr, th⟩ := st
  refine ⟨?_, rfl⟩
  have h' : lay ≠ [] := h
  have hdecomp : lay.dropLast ++ [lay.getLast h'] = lay :=
    List.dropLast_concat_getLast h'
  have h2 := foldl_insert_snoc t msgs [] (lay.getLast h')
  simp only [List.nil_append] at h2
  simp only [apply_theme, refresh_messages, ChatState.mk.injEq, and_true, true_and]
  rw [← hdecomp, remove_all_but_last_snoc, h2, remove_all_but_last_snoc, h2]

/-- Witness for C6 at the startup state and the Light theme. -/
theorem apply_theme_idempotent_witness :
    startup_state.layout ≠ [] ∧
    (apply_theme Themes.LIGHT (apply_theme Themes.LIGHT startup_state) =
        apply_theme Themes.LIGHT startup_state ∧
      (apply_theme Themes.LIGHT startup_state).messages = startup_state.messages) :=
  ⟨by decide, apply_theme_idempotent Themes.LIGHT startup_state (by decide)⟩

/-- C7: the message log is append-only, but the rendered timeline does not
always reflect it.  At the reachable startup state (log = [welcome], layout =
stretch followed by one widget), a theme switch leaves the timeline showing
the welcome message twice: the rebuild loop in `refresh_messages` assumes the
stretch is the *last* layout item, but `setup_ui` put it first, so the switch
deletes the stretch and keeps a stale copy of the last message widget. -/
theorem timeline_duplicates_after_theme_switch :
    timelineMsgs startup_state.layout = [welcome] ∧
    (apply_theme Themes.LIGHT startup_state).messages = startup_state.messages ∧
    timelineMsgs (apply_theme Themes.LIGHT startup_state).layout =
      [welcome, welcome] := by
  exact ⟨by decide, by decide, by decide⟩

/-- C3 (amended): exporting to a non-empty `.txt` destination writes, for a
log in which no sender or content contains a newline, exactly one
newline-terminated line `[YYYY-MM-DD HH:MM:SS] sender: content` per message in
log order, so the file's line count equals the log length. -/
theorem export_text_lines (st : ChatState) (file_path : String)
    (hp : file_path ≠ "") (ht : pyEndsWith file_path ".txt" = true)
    (h : ∀ m ∈ st.messages, '\n' ∉ m.sender.data ∧ '\n' ∉ m.content.data) :
    ∃ out, save_chat_history file_path st = some out ∧
      fileLines out = st.messages.map export_body ∧
      (fileLines out).length = st.messages.length := by
  have hlines : fileLines (save_chat_text st.messages) =
      st.messages.map export_body := by
    unfold fileLines
    rw [splitNl_save_chat_text st.messages h, List.dropLast_concat, List.map_map]
    exact List.map_congr_left fun m _ => rfl
  exact ⟨save_chat_text st.messages, by simp [save_chat_history, hp, ht],
    hlines, by rw [hlines, List.length_map]⟩

/-- A plain one-line text message, used by concrete evaluations. -/
def hola_msg : Message :=
  { content := "hola", type := MessageType.TEXT, sender := "Tú", timestamp := ts0 }

/-- A two-message newline-free log. -/
def two_msg_state : ChatState :=
  { initial_state with messages := [welcome, hola_msg] }

/-- A message whose content contains a newline (typed in the multi-line
composer: plain Return inserts a line break, Control+Return sends). -/
def newline_msg : Message :=
  { content := "a\nb", type := MessageType.TEXT, sender := "Tú", timestamp := ts0 }

/-- A reachable log holding one multi-line message. -/
def newline_state : ChatState :=
  { initial_state with messages := [newline_msg] }

/-- Witness for C3's amended theorem: a two-message newline-free log exports
to exactly two lines in log order. -/
theorem export_text_lines_witness :
    ∃ out,
      save_chat_history "chat.txt" two_msg_state = some out ∧
      fileLines out = two_msg_state.messages.map export_body ∧
      (fileLines out).length = two_msg_state.messages.length :=
  export_text_lines two_msg_state "chat.txt" (by decide) (by decide) (by decide)

/-- C3 counterexample: the composer is multi-line, so a log holding a message
whose content contains a newline is reachable; exporting it to `.txt` yields a
2-line file for a 1-message log, so the line count does not equal the log
length and the single message does not occupy a single line. -/
theorem export_text_linecount_mismatch :
    (fileLines
      (Option.getD (save_chat_history "chat.txt" newline_state) "")).length = 2 ∧
    newline_state.messages.length = 1 := by
  exact ⟨by decide, by decide⟩

end Chat

